import Mathlib

/-!
Verification development for the tourmageddon-saas SQL-generation scripts.

The repository consists of three linear Python scripts that read a table,
normalize booking identifiers, partition rows into fixed-size batches and
print SQL `UPDATE` statements plus a verification query.  This file gives a
shallow embedding of those transformations on Lean lists and strings and
proves the testable properties of the specification against it.

Modelling conventions:
* each Python `print(...)` call becomes one element of a `List String`
  (the trailing newline is implicit; embedded `\n` characters are kept);
* a pandas cell is `Option String`, with `none` standing for `NaN`;
* `pd.to_datetime(x).strftime('%Y-%m-%d %H:%M:%S')` is abstracted by a
  function parameter `fmt : String → String`, and the textual rendering of
  `Series.value_counts()` by a parameter `vc`.
-/

/-- Python `s.startswith(pat)` on character lists: `pat` is a leading
segment of `s`. -/
def startsWithL : List Char → List Char → Bool
  | [], _ => true
  | _ :: _, [] => false
  | p :: ps, c :: cs => p == c && startsWithL ps cs

/-- Python `pat in s` (substring containment) on character lists. -/
def containsSub (pat : List Char) : List Char → Bool
  | [] => startsWithL pat []
  | c :: s => startsWithL pat (c :: s) || containsSub pat s

/-- One pass of Python `s.replace(pat, '')`: scan `s` left to right, delete
every non-overlapping occurrence of `pat`, never rescanning deleted text.
The `fuel` argument makes the recursion structural; it is instantiated with
`s.length`, which always suffices because every step consumes at least one
character. -/
def removeAllAux (pat : List Char) : Nat → List Char → List Char
  | 0, s => s
  | _ + 1, [] => []
  | fuel + 1, c :: s =>
    if startsWithL pat (c :: s) then removeAllAux pat fuel ((c :: s).drop pat.length)
    else c :: removeAllAux pat fuel s

/-- Python `s.replace(pat, '')` on character lists. -/
def removeAll (pat : List Char) (s : List Char) : List Char :=
  removeAllAux pat s.length s

/-- The six sales-channel codes stripped by `generate_update_sql.py`,
in the order the script applies them. -/
def channelCodes : List String :=
  ["ENRO-", "TTG-", "PRO-", "VIA-", "HED-", "VET-"]

/-- `generate_update_sql.py`, line 8: the chained
`.str.replace('ENRO-', '').str.replace('TTG-', '')…` pipeline producing
`clean_booking_id` from `booking_id`.  Pandas `str.replace` with a plain
pattern removes every occurrence of the pattern, not only a leading one. -/
def clean_booking_id (s : String) : String :=
  ⟨removeAll "VET-".data (removeAll "HED-".data (removeAll "VIA-".data
    (removeAll "PRO-".data (removeAll "TTG-".data (removeAll "ENRO-".data s.data)))))⟩

/-- Python `range(start, stop, step)` as a list, for `step ≥ 1`; the fuel
`stop - start` bounds the number of produced indices. -/
def pyRangeAux (step : Nat) : Nat → Nat → Nat → List Nat
  | 0, _, _ => []
  | fuel + 1, start, stop =>
    if start < stop then start :: pyRangeAux step fuel (start + step) stop else []

/-- Python `range(start, stop, step)` for `step ≥ 1`. -/
def pyRange (start stop step : Nat) : List Nat :=
  pyRangeAux step (stop - start) start stop

/-- Python slice `xs[i:j]` on lists (for `0 ≤ i ≤ j`). -/
def pySlice (xs : List α) (i j : Nat) : List α :=
  (xs.drop i).take (j - i)

/-- The Batcher shared by both emitters: the `for i in range(0, len(xs),
batch_size): xs[i:i+batch_size]` slicing loop, as the list of produced
batches. -/
def batches (bs : Nat) (xs : List α) : List (List α) :=
  (pyRange 0 xs.length bs).map (fun i => pySlice xs i (i + bs))

/-- Pandas `drop_duplicates` / `Series.unique`: keep the first occurrence
of each value, in order.  Fuel-structural; `l.length` fuel suffices. -/
def dropDupAux [BEq α] : Nat → List α → List α
  | 0, l => l
  | _ + 1, [] => []
  | fuel + 1, a :: l => a :: dropDupAux fuel (l.filter (fun b => !(b == a)))

/-- Pandas `drop_duplicates` / `Series.unique` (first occurrence kept). -/
def dropDup [BEq α] (l : List α) : List α :=
  dropDupAux l.length l

/-- A pandas cell: `none` models `NaN`, `some s` a value rendered as `s`. -/
abbrev Cell := Option String

/-- Python `str(cell)`: the value itself, or `"nan"` for a missing value. -/
def cellStr : Cell → String
  | some s => s
  | none => "nan"

/-- Pandas elementwise `==` against a scalar: `NaN` compares unequal to
everything, including `NaN` itself. -/
def eqCell : Cell → Cell → Bool
  | some x, some y => x == y
  | _, _ => false

/-- An in-memory data frame: named columns of cells, in file order. -/
structure CsvFrame where
  cols : List (String × List Cell)

/-- `len(df)`: number of rows (length of the first column, 0 if none). -/
def numRows (df : CsvFrame) : Nat :=
  (df.cols.head?.map (fun c => c.2.length)).getD 0

/-- Column lookup, `df[name]`, as an `Option`. -/
def lookupCol (df : CsvFrame) (name : String) : Option (List Cell) :=
  (df.cols.find? (fun c => c.1 == name)).map (fun c => c.2)

/-- Column lookup with a default; only used under a presence guard. -/
def getColD (df : CsvFrame) (name : String) : List Cell :=
  (lookupCol df name).getD []

/-- Column access `df[name]` where a missing column raises `KeyError`,
modelled as `Except`. -/
def getColE (df : CsvFrame) (name : String) : Except String (List Cell) :=
  match lookupCol df name with
  | some v => .ok v
  | none => .error ("KeyError: " ++ name)

/-- Python `'x' in df.columns`. -/
def hasCol (df : CsvFrame) (name : String) : Bool :=
  (df.cols.map Prod.fst).contains name

/-- ASCII lowercasing of one character (the column names involved are
ASCII, so this matches Python `str.lower`). -/
def lowerChar (c : Char) : Char :=
  if 'A' ≤ c && c ≤ 'Z' then Char.ofNat (c.toNat + 32) else c

/-- ASCII `str.lower` on character lists. -/
def lowerL (s : List Char) : List Char :=
  s.map lowerChar

/-- `update_status_from_csv.py`, lines 13-17: the first column whose
lowercased name contains `'status'`, if any. -/
def findStatusCol (df : CsvFrame) : Option String :=
  (df.cols.find? (fun c => containsSub "status".data (lowerL c.1.data))).map (fun c => c.1)

/-- Python `repr` of a list of (quote-free) strings, as printed by
`print(f"Columns: {df.columns.tolist()}")`. -/
def pyListRepr (xs : List String) : String :=
  "[" ++ String.intercalate ", " (xs.map (fun s => "'" ++ s ++ "'")) ++ "]"

/-- `df['activity_booking_id'].nunique()`: distinct non-null values. -/
def nuniqueCells (l : List Cell) : Nat :=
  (dropDup (l.filter (fun c => c.isSome))).length

/-! ### The date-update script, `generate_update_sql.py` -/

/-- One `WHEN … THEN …` line of the `CASE` block (line 34 of the script);
`fmt` abstracts `pd.to_datetime(·).strftime('%Y-%m-%d %H:%M:%S')`. -/
def fmtWhen (fmt : String → String) (p : String × String) : String :=
  "    WHEN '" ++ p.1 ++ "' THEN '" ++ fmt p.2 ++ "'::timestamp"

/-- Python `"', '".join(keys)` (lines 38 and 45 of the script). -/
def joinKeys (ks : List String) : String :=
  String.intercalate "', '" ks

/-- The print calls of one iteration of the batch loop (lines 28-39):
batch header, `UPDATE`, `CASE` opener, one `WHEN` per row, the identity
`ELSE`, `END`, and the `WHERE … IN` line over the batch's keys.  `i` is
the slice start index provided by the `range` loop. -/
def emitDateBatch (fmt : String → String) (i : Nat) (batch : List (String × String)) :
    List String :=
  ["\n-- Batch " ++ toString (i / 50 + 1),
   "UPDATE activity_bookings",
   "SET created_at = CASE booking_id::text"]
  ++ batch.map (fmtWhen fmt)
  ++ ["    ELSE created_at",
      "END",
      "WHERE booking_id::text IN ('" ++ joinKeys (batch.map Prod.fst) ++ "');"]

/-- The whole transformation of `generate_update_sql.py` after loading:
rows are `(booking_id, creation_date)` pairs; ids are normalized, the
pairs deduplicated, batched by 50 and emitted, followed by the
verification query over all unique keys (lines 8-46). -/
def generate_update_sql (fmt : String → String) (rows : List (String × String)) :
    List String :=
  let uniq := dropDup (rows.map (fun r => (clean_booking_id r.1, r.2)))
  let booking_ids := uniq.map Prod.fst
  ["Total unique bookings to update: " ++ toString uniq.length,
   "\n-- SQL to update booking creation dates from Excel file",
   "-- This will update the anomalous bookings imported in bulk\n",
   "-- Updating " ++ toString booking_ids.length ++ " bookings\n"]
  ++ ((pyRange 0 uniq.length 50).map (fun i => emitDateBatch fmt i (pySlice uniq i (i + 50)))).flatten
  ++ ["\n\n-- Verification query to check the updates",
      "SELECT COUNT(*) as updated_count, MIN(created_at) as min_date, MAX(created_at) as max_date",
      "FROM activity_bookings",
      "WHERE booking_id::text IN ('" ++ joinKeys booking_ids ++ "');"]

/-- The script from the frame level: column accesses `df['booking_id']`
(line 8) and `df[…'creation_date']` (line 11) raise `KeyError` when the
column is absent; otherwise the pure pipeline runs. -/
def generate_update_sql_main (fmt : String → String) (df : CsvFrame) :
    Except String (List String) := do
  let bids ← getColE df "booking_id"
  let cds ← getColE df "creation_date"
  pure (generate_update_sql fmt ((bids.map cellStr).zip (cds.map cellStr)))

/-! ### The status-update script, `update_status_from_csv.py` -/

/-- Lines 36-37: ids of the rows whose status cell equals `st` under the
NaN-unequal pandas comparison (`df[df[status_col] == status]`). -/
def statusGroupIds (statusCol idCol : List Cell) (st : Cell) : List Cell :=
  ((idCol.zip statusCol).filter (fun p => eqCell p.2 st)).map Prod.fst

/-- Lines 35-51: for each distinct status value (in first-appearance
order, `NaN` included once), if its group is non-empty, a group header
followed, per batch of 100 ids, by the `UPDATE`/`SET`/`WHERE` lines and a
blank line. -/
def statusUpdateStatements (statusCol idCol : List Cell) : List String :=
  ((dropDup statusCol).map (fun status =>
    let activity_ids := statusGroupIds statusCol idCol status
    if activity_ids.length > 0 then
      ["\n-- Update " ++ toString activity_ids.length ++ " bookings to " ++ cellStr status]
      ++ ((pyRange 0 activity_ids.length 100).map (fun i =>
            let batch := pySlice activity_ids i (i + 100)
            ["UPDATE activity_bookings",
             "SET status = '" ++ cellStr status ++ "'",
             "WHERE activity_booking_id IN (" ++
               String.intercalate ", " (batch.map cellStr) ++ ");",
             ""])).flatten
    else [])).flatten

/-- The ids the generated statements collectively target: the
concatenation of the per-status groups the batch loops slice from. -/
def updatedCells (statusCol idCol : List Cell) : List Cell :=
  ((dropDup statusCol).map (statusGroupIds statusCol idCol)).flatten

/-- Lines 54-58: the verification query over the ids of all rows. -/
def statusVerification (idCol : List Cell) : List String :=
  ["\n-- Verification query",
   "SELECT status, COUNT(*) as count",
   "FROM activity_bookings",
   "WHERE activity_booking_id IN (" ++
     String.intercalate ", " (idCol.map cellStr) ++ ")",
   "GROUP BY status;"]

/-- The whole printed output of `update_status_from_csv.py` after loading
(lines 8-61): info lines, status-column report, then — only when
`activity_booking_id` exists — diagnostics, the per-status statements and
the verification query; otherwise the not-found message.  `vc` abstracts
the textual rendering of `Series.value_counts()`. -/
def update_status_from_csv (vc : List Cell → String) (df : CsvFrame) : List String :=
  let statusCol? := findStatusCol df
  ["File info:",
   "Total rows: " ++ toString (numRows df),
   "Columns: " ++ pyListRepr (df.cols.map Prod.fst)]
  ++ (match statusCol? with
      | some sc => ["\nFound status column: " ++ sc,
                    "Status values: " ++ vc (getColD df sc)]
      | none => ["\nStatus column not found!"])
  ++ (if hasCol df "activity_booking_id" then
        let idCol := getColD df "activity_booking_id"
        ["\nUnique activity_booking_ids: " ++ toString (nuniqueCells idCol),
         "\n\n-- SQL Updates for status changes",
         "-- Grouping by status for efficiency\n"]
        ++ (match statusCol? with
            | some sc => statusUpdateStatements (getColD df sc) idCol
                          ++ statusVerification idCol
            | none => [])
      else ["activity_booking_id column not found!"])

/-! ### Semantics of the emitted date-update statement

Modelled from the spec: the repository never executes SQL, so the effect
of one emitted `UPDATE … SET created_at = CASE … ELSE created_at END
WHERE booking_id IN (…)` statement on a `(booking_id, created_at)` row is
taken from the specification's guarantee for the date-update variant. -/

/-- Effect of the emitted date-update statement on one row: rows whose id
is outside the `IN` list are untouched; matched rows take the timestamp
of their `WHEN` clause, and the `ELSE` branch is the identity. -/
def runDateUpdate (fmt : String → String) (batch : List (String × String))
    (row : String × String) : String × String :=
  if (batch.map Prod.fst).contains row.1 then
    match batch.find? (fun w => w.1 == row.1) with
    | some w => (row.1, fmt w.2)
    | none => row
  else row

/-- Recognizer for the `WHEN … THEN …` lines of an emitted `CASE` block. -/
def isWhenLine (l : String) : Bool :=
  startsWithL "    WHEN '".data l.data

-- Sanity checks of the embedding on concrete inputs.
example : clean_booking_id "ENRO-12345" = "12345" := by decide
example : clean_booking_id "XENRO-1" = "X1" := by decide
example : clean_booking_id "ENTTG-RO-X" = "ENRO-X" := by decide
example : batches 2 [1, 2, 3, 4, 5] = [[1, 2], [3, 4], [5]] := by decide
example : batches 3 ([] : List Nat) = [] := by decide
example : dropDup [1, 2, 1, 3, 2] = [1, 2, 3] := by decide
example : pyRange 0 150 100 = [0, 100] := by decide
example : findStatusCol ⟨[("activity_booking_id", []), ("Status", [])]⟩ = some "Status" := by decide

/-! ### Lemmas about the Batcher -/

theorem pyRangeAux_stop_le (step fuel start stop : Nat) (h : stop ≤ start) :
    pyRangeAux step fuel start stop = [] := by
  cases fuel with
  | zero => rfl
  | succ n => simp [pyRangeAux, Nat.not_lt.mpr h]

theorem pyRangeAux_congr (step : Nat) (hstep : 1 ≤ step) :
    ∀ fuel fuel' start stop, stop - start ≤ fuel → stop - start ≤ fuel' →
      pyRangeAux step fuel start stop = pyRangeAux step fuel' start stop := by
  intro fuel
  induction fuel with
  | zero =>
    intro fuel' start stop h h'
    rw [pyRangeAux_stop_le step 0 start stop (by omega),
        pyRangeAux_stop_le step fuel' start stop (by omega)]
  | succ n ih =>
    intro fuel' start stop h h'
    cases fuel' with
    | zero =>
      rw [pyRangeAux_stop_le step (n + 1) start stop (by omega),
          pyRangeAux_stop_le step 0 start stop (by omega)]
    | succ m =>
      by_cases hlt : start < stop
      · simp only [pyRangeAux, if_pos hlt]
        rw [ih m (start + step) stop (by omega) (by omega)]
      · simp only [pyRangeAux, if_neg hlt]

theorem pyRangeAux_shift (step k : Nat) :
    ∀ fuel start stop, pyRangeAux step fuel (start + k) (stop + k) =
      (pyRangeAux step fuel start stop).map (· + k) := by
  intro fuel
  induction fuel with
  | zero => intro start stop; rfl
  | succ n ih =>
    intro start stop
    by_cases hlt : start < stop
    · have hlt' : start + k < stop + k := by omega
      simp only [pyRangeAux, if_pos hlt, if_pos hlt', List.map_cons]
      have := ih (start + step) stop
      rw [show start + k + step = start + step + k by omega, this]
    · have hlt' : ¬ start + k < stop + k := by omega
      simp only [pyRangeAux, if_neg hlt, if_neg hlt', List.map_nil]

theorem pyRange_zero_eq (bs n : Nat) (hbs : 1 ≤ bs) (hn : 0 < n) :
    pyRange 0 n bs = 0 :: (pyRange 0 (n - bs) bs).map (· + bs) := by
  unfold pyRange
  simp only [Nat.sub_zero]
  obtain ⟨m, rfl⟩ : ∃ m, n = m + 1 := ⟨n - 1, by omega⟩
  simp only [pyRangeAux, if_pos hn, Nat.zero_add]
  congr 1
  by_cases hc : m + 1 ≤ bs
  · rw [pyRangeAux_stop_le bs m bs (m + 1) (by omega),
        show m + 1 - bs = 0 by omega]
    rfl
  · have hshift := pyRangeAux_shift bs bs (m + 1 - bs) 0 (m + 1 - bs)
    rw [show m + 1 - bs + bs = m + 1 by omega, Nat.zero_add] at hshift
    rw [← hshift]
    exact pyRangeAux_congr bs hbs m (m + 1 - bs) bs (m + 1) (by omega) (by omega)

theorem batches_nil {α : Type} (bs : Nat) : batches bs ([] : List α) = [] := rfl

theorem batches_cons {α : Type} {bs : Nat} (hbs : 1 ≤ bs) (xs : List α) (hxs : xs ≠ []) :
    batches bs xs = xs.take bs :: batches bs (xs.drop bs) := by
  have hn : 0 < xs.length := List.length_pos.mpr hxs
  unfold batches
  rw [pyRange_zero_eq bs xs.length hbs hn, List.map_cons, List.map_map, List.length_drop]
  congr 1
  · simp [pySlice]
  · apply List.map_congr_left
    intro i _
    show (xs.drop (i + bs)).take (i + bs + bs - (i + bs)) =
      ((xs.drop bs).drop i).take (i + bs - i)
    rw [List.drop_drop, show bs + i = i + bs by omega,
        show i + bs + bs - (i + bs) = bs by omega, show i + bs - i = bs by omega]

theorem batchesFlatten {α : Type} {bs : Nat} (hbs : 1 ≤ bs) :
    ∀ xs : List α, (batches bs xs).flatten = xs
  | [] => by rw [batches_nil]; rfl
  | x :: t => by
    rw [batches_cons hbs (x :: t) (List.cons_ne_nil x t), List.flatten_cons,
        batchesFlatten hbs ((x :: t).drop bs), List.take_append_drop]
termination_by xs => xs.length
decreasing_by
  simp only [List.length_drop, List.length_cons]
  omega

theorem batchesMemLen {α : Type} {bs : Nat} (hbs : 1 ≤ bs) :
    ∀ (xs : List α) b, b ∈ batches bs xs → b.length ≤ bs
  | [] => by intro b hb; rw [batches_nil] at hb; simp at hb
  | x :: t => by
    intro b hb
    rw [batches_cons hbs (x :: t) (List.cons_ne_nil x t)] at hb
    rcases List.mem_cons.mp hb with h | h
    · subst h
      rw [List.length_take]
      exact Nat.min_le_left _ _
    · exact batchesMemLen hbs ((x :: t).drop bs) b h
termination_by xs => xs.length
decreasing_by
  simp only [List.length_drop, List.length_cons]
  omega

theorem batchesInitLen {α : Type} {bs : Nat} (hbs : 1 ≤ bs) :
    ∀ (xs : List α) i, i + 1 < (batches bs xs).length →
      ((batches bs xs).getD i []).length = bs
  | [] => by intro i h; rw [batches_nil] at h; simp at h
  | x :: t => by
    intro i h
    rw [batches_cons hbs (x :: t) (List.cons_ne_nil x t)] at h ⊢
    cases i with
    | zero =>
      have hrest : batches bs ((x :: t).drop bs) ≠ [] := by
        intro hnil
        rw [hnil] at h
        simp at h
      have hlen : bs < (x :: t).length := by
        by_contra hle
        have hdrop : (x :: t).drop bs = [] := List.drop_eq_nil_of_le (by omega)
        rw [hdrop, batches_nil] at hrest
        exact hrest rfl
      rw [List.getD_cons_zero, List.length_take, Nat.min_eq_left (Nat.le_of_lt hlen)]
    | succ j =>
      rw [List.getD_cons_succ]
      refine batchesInitLen hbs ((x :: t).drop bs) j ?_
      simpa using h
termination_by xs => xs.length
decreasing_by
  simp only [List.length_drop, List.length_cons]
  omega

/-! ### Lemmas about the Key Normalizer and strings -/

theorem startsWithL_false_of_head_ne {p c : Char} {ps t : List Char}
    (h : (p == c) = false) : startsWithL (p :: ps) (c :: t) = false := by
  simp [startsWithL, h]

theorem startsWithL_append_self (p t : List Char) : startsWithL p (p ++ t) = true := by
  induction p with
  | nil => rfl
  | cons c cs ih => simp [startsWithL, ih]

theorem containsSub_cons_elim {pat : List Char} {c : Char} {s : List Char}
    (h : containsSub pat (c :: s) = false) :
    startsWithL pat (c :: s) = false ∧ containsSub pat s = false := by
  have h' := h
  unfold containsSub at h'
  exact Bool.or_eq_false_iff.mp h'

theorem removeAllAux_id_of_not_sub (pat : List Char) :
    ∀ fuel s, s.length ≤ fuel → containsSub pat s = false →
      removeAllAux pat fuel s = s := by
  intro fuel
  induction fuel with
  | zero =>
    intro s _ _
    rfl
  | succ n ih =>
    intro s hlen hsub
    cases s with
    | nil => rfl
    | cons c t =>
      obtain ⟨h1, h2⟩ := containsSub_cons_elim hsub
      simp only [removeAllAux, h1, Bool.false_eq_true, if_false]
      rw [ih t (by simp only [List.length_cons] at hlen; omega) h2]

theorem removeAll_id_of_not_sub {pat s : List Char}
    (h : containsSub pat s = false) : removeAll pat s = s :=
  removeAllAux_id_of_not_sub pat s.length s (Nat.le_refl _) h

/-- If an identifier contains none of the six channel codes as a
substring, the chained replace pipeline leaves it unchanged. -/
theorem cleanFixed {s : String}
    (h : ∀ p ∈ channelCodes, containsSub p.data s.data = false) :
    clean_booking_id s = s := by
  unfold clean_booking_id
  rw [removeAll_id_of_not_sub (h "ENRO-" (by simp [channelCodes])),
      removeAll_id_of_not_sub (h "TTG-" (by simp [channelCodes])),
      removeAll_id_of_not_sub (h "PRO-" (by simp [channelCodes])),
      removeAll_id_of_not_sub (h "VIA-" (by simp [channelCodes])),
      removeAll_id_of_not_sub (h "HED-" (by simp [channelCodes])),
      removeAll_id_of_not_sub (h "VET-" (by simp [channelCodes]))]

theorem string_append_ne {a x b : String} {c c' : Char} {ta tb : List Char}
    (ha : a.data = c :: ta) (hb : b.data = c' :: tb) (hne : c ≠ c') : a ++ x ≠ b := by
  intro h
  have hd : (a ++ x).data = b.data := by rw [h]
  rw [String.data_append, ha, hb, List.cons_append] at hd
  exact hne (List.cons.injEq _ _ _ _ ▸ hd).1

theorem string_append_beq_false {a x b : String} {c c' : Char} {ta tb : List Char}
    (ha : a.data = c :: ta) (hb : b.data = c' :: tb) (hne : c ≠ c') :
    ((a ++ x) == b) = false :=
  beq_eq_false_iff_ne.mpr (string_append_ne ha hb hne)

/-! ### Lemmas about deduplication, zipping and grouping -/

theorem dropDupAux_nil {α : Type} [BEq α] (n : Nat) : dropDupAux n ([] : List α) = [] := by
  cases n <;> rfl

theorem filter_ne_self_replicate {α : Type} [BEq α] [LawfulBEq α] (n : Nat) (a : α) :
    (List.replicate n a).filter (fun b => !(b == a)) = [] := by
  induction n with
  | zero => rfl
  | succ n ih => simp [List.replicate_succ, List.filter_cons, ih]

theorem dropDup_replicate_succ {α : Type} [BEq α] [LawfulBEq α] (n : Nat) (a : α) :
    dropDup (List.replicate (n + 1) a) = [a] := by
  unfold dropDup
  rw [List.length_replicate, List.replicate_succ]
  show a :: dropDupAux n ((List.replicate n a).filter (fun b => !(b == a))) = [a]
  rw [filter_ne_self_replicate, dropDupAux_nil]

theorem zip_replicate_self {α β : Type} (l : List α) (a : β) :
    l.zip (List.replicate l.length a) = l.map (fun x => (x, a)) := by
  induction l with
  | nil => rfl
  | cons x t ih => simp [List.replicate_succ, List.zip_cons_cons, ih]

theorem eqCell_some_some (x y : String) : eqCell (some x) (some y) = (x == y) := rfl

theorem groupIds_all_eq (st : String) (l : List Cell) :
    ((l.map (fun x => (x, some st))).filter (fun p => eqCell p.2 (some st))).map Prod.fst
      = l := by
  induction l with
  | nil => rfl
  | cons x t ih => simp [List.filter_cons, eqCell_some_some, ih]

theorem eqCell_none_left (st : Cell) : eqCell none st = false := by
  cases st <;> rfl

theorem string_ne_of_data_head {a b : String} {c c' : Char} {ta tb : List Char}
    (ha : a.data = c :: ta) (hb : b.data = c' :: tb) (hne : c ≠ c') : a ≠ b := by
  intro h
  rw [h, hb] at ha
  exact hne ((List.cons.injEq _ _ _ _ ▸ ha).1).symm

theorem string_beq_false_of_data_head {a b : String} {c c' : Char} {ta tb : List Char}
    (ha : a.data = c :: ta) (hb : b.data = c' :: tb) (hne : c ≠ c') : (a == b) = false :=
  beq_eq_false_iff_ne.mpr (string_ne_of_data_head ha hb hne)

theorem isWhenLine_false_of_head {l : String} {c : Char} {t : List Char}
    (h : l.data = c :: t) (hc : (' ' == c) = false) : isWhenLine l = false := by
  unfold isWhenLine
  rw [h]
  exact startsWithL_false_of_head_ne hc

theorem isWhenLine_fmtWhen (fmt : String → String) (p : String × String) :
    isWhenLine (fmtWhen fmt p) = true := by
  unfold isWhenLine fmtWhen
  simp only [String.data_append, List.append_assoc]
  exact startsWithL_append_self _ _

/-! ### Claim theorems -/

/-- C1: for every input sequence and every batch size ≥ 1, concatenating
the batches produced by the range-step slicing loop, in order, yields
exactly the original sequence (each element once, in position, with no
overlap between consecutive batches). -/
theorem c1_batcher_concat {α : Type} (bs : Nat) (hbs : 1 ≤ bs) (xs : List α) :
    (batches bs xs).flatten = xs :=
  batchesFlatten hbs xs

theorem c1_batcher_concat_witness :
    1 ≤ 2 ∧ (batches 2 [1, 2, 3, 4, 5]).flatten = [1, 2, 3, 4, 5] :=
  ⟨by decide, c1_batcher_concat 2 (by decide) [1, 2, 3, 4, 5]⟩

/-- C2 (counterexample): `"XENRO-1"` starts with none of the six channel
prefixes, yet the chained replace pipeline changes it (to `"X1"`), because
pandas `str.replace` deletes every occurrence of the pattern, not only a
leading one.  This refutes the claim as stated. -/
theorem c2_normalizer_counterexample :
    (∀ p ∈ channelCodes, startsWithL p.data "XENRO-1".data = false) ∧
      clean_booking_id "XENRO-1" ≠ "XENRO-1" := by
  constructor
  · decide
  · decide

/-- C2 (amended): for every identifier that does not contain any of the
six channel prefixes as a substring (anywhere, not just at the start), the
Key Normalizer returns it unchanged. -/
theorem c2_normalizer_unmatched (s : String)
    (h : ∀ p ∈ channelCodes, containsSub p.data s.data = false) :
    clean_booking_id s = s :=
  cleanFixed h

theorem c2_normalizer_unmatched_witness :
    (∀ p ∈ channelCodes, containsSub p.data "B-12345".data = false) ∧
      clean_booking_id "B-12345" = "B-12345" :=
  ⟨by decide, c2_normalizer_unmatched "B-12345" (by decide)⟩

/-- C3 (counterexample): the full chain of six prefix removals is not
idempotent: `"ENTTG-RO-X"` maps to `"ENRO-X"` (the `TTG-` removal
re-creates an `ENRO-` occurrence after that replace has already run), and
a second application maps that to `"X"`. -/
theorem c3_idempotent_counterexample :
    clean_booking_id (clean_booking_id "ENTTG-RO-X") ≠ clean_booking_id "ENTTG-RO-X" := by
  decide

/-- C3 (amended): applying the Key Normalizer twice agrees with applying
it once on every identifier whose once-normalized form contains none of
the six channel prefixes as a substring; in general a later removal can
re-create an earlier prefix, and a second pass removes more. -/
theorem c3_idempotent_when_exhausted (s : String)
    (h : ∀ p ∈ channelCodes, containsSub p.data (clean_booking_id s).data = false) :
    clean_booking_id (clean_booking_id s) = clean_booking_id s :=
  cleanFixed h

theorem c3_idempotent_when_exhausted_witness :
    (∀ p ∈ channelCodes, containsSub p.data (clean_booking_id "ENRO-77").data = false) ∧
      clean_booking_id (clean_booking_id "ENRO-77") = clean_booking_id "ENRO-77" :=
  ⟨by decide, c3_idempotent_when_exhausted "ENRO-77" (by decide)⟩

/-- C5: for every input sequence and any batch size ≥ 1 (the scripts
configure 50 and 100), every batch produced by the Batcher has length at
most the batch size, and every batch except possibly the last has length
exactly the batch size. -/
theorem c5_batch_size_invariant {α : Type} (bs : Nat) (hbs : 1 ≤ bs) (xs : List α) :
    (∀ b ∈ batches bs xs, b.length ≤ bs) ∧
      (∀ i, i + 1 < (batches bs xs).length → ((batches bs xs).getD i []).length = bs) :=
  ⟨fun b hb => batchesMemLen hbs xs b hb, fun i hi => batchesInitLen hbs xs i hi⟩

theorem c5_batch_size_invariant_witness :
    (1 ≤ 50 ∧
      (∀ b ∈ batches 50 (List.range 120), b.length ≤ 50) ∧
      (∀ i, i + 1 < (batches 50 (List.range 120)).length →
        ((batches 50 (List.range 120)).getD i []).length = 50)) ∧
    (1 ≤ 100 ∧
      (∀ b ∈ batches 100 (List.range 150), b.length ≤ 100) ∧
      (∀ i, i + 1 < (batches 100 (List.range 150)).length →
        ((batches 100 (List.range 150)).getD i []).length = 100)) :=
  ⟨⟨by decide, (c5_batch_size_invariant 50 (by decide) (List.range 120)).1,
     (c5_batch_size_invariant 50 (by decide) (List.range 120)).2⟩,
   ⟨by decide, (c5_batch_size_invariant 100 (by decide) (List.range 150)).1,
     (c5_batch_size_invariant 100 (by decide) (List.range 150)).2⟩⟩

/-- C9: each script's transformation from loaded input to printed SQL is
a pure function of the input, so two runs on the same input produce
identical output. -/
theorem c9_deterministic (fmt : String → String) (vc : List Cell → String)
    (df : CsvFrame) (out₁ out₂ : Except String (List String)) (sout₁ sout₂ : List String)
    (h₁ : out₁ = generate_update_sql_main fmt df)
    (h₂ : out₂ = generate_update_sql_main fmt df)
    (h₃ : sout₁ = update_status_from_csv vc df)
    (h₄ : sout₂ = update_status_from_csv vc df) :
    out₁ = out₂ ∧ sout₁ = sout₂ :=
  ⟨h₁.trans h₂.symm, h₃.trans h₄.symm⟩

theorem c9_deterministic_witness :
    generate_update_sql_main (fun s => s) ⟨[]⟩ = generate_update_sql_main (fun s => s) ⟨[]⟩ ∧
      update_status_from_csv (fun _ => "") ⟨[]⟩ = update_status_from_csv (fun _ => "") ⟨[]⟩ :=
  c9_deterministic (fun s => s) (fun _ => "") ⟨[]⟩ _ _ _ _ rfl rfl rfl rfl

/-- C6: on 150 identifiers sharing one status value, the status emitter
produces exactly two `UPDATE` statements for that status — the first over
the first 100 ids, the second over the remaining 50 — both setting the
same literal value. -/
theorem c6_status_150_two_updates (idCol : List Cell) (h : idCol.length = 150) (st : String) :
    statusUpdateStatements (List.replicate 150 (some st)) idCol =
      ["\n-- Update 150 bookings to " ++ st,
       "UPDATE activity_bookings",
       "SET status = '" ++ st ++ "'",
       "WHERE activity_booking_id IN (" ++
         String.intercalate ", " ((idCol.take 100).map cellStr) ++ ");",
       "",
       "UPDATE activity_bookings",
       "SET status = '" ++ st ++ "'",
       "WHERE activity_booking_id IN (" ++
         String.intercalate ", " ((idCol.drop 100).map cellStr) ++ ");",
       ""] ∧
    (idCol.take 100).length = 100 ∧ (idCol.drop 100).length = 50 := by
  have hd : dropDup (List.replicate 150 ((some st) : Cell)) = [some st] := by
    rw [show (150 : Nat) = 149 + 1 from rfl]
    exact dropDup_replicate_succ 149 (some st)
  have hg : statusGroupIds (List.replicate 150 (some st)) idCol (some st) = idCol := by
    unfold statusGroupIds
    rw [← h, zip_replicate_self idCol (some st)]
    exact groupIds_all_eq st idCol
  refine ⟨?_, ?_, ?_⟩
  · simp only [statusUpdateStatements, hd, List.map_cons, List.map_nil, List.flatten_cons,
      List.flatten_nil, List.append_nil, hg, h]
    rw [if_pos (show (150 : Nat) > 0 by norm_num)]
    rw [show pyRange 0 150 100 = [0, 100] from by decide]
    simp only [List.map_cons, List.map_nil, List.flatten_cons, List.flatten_nil,
      List.append_nil]
    have hs1 : pySlice idCol 0 (0 + 100) = idCol.take 100 := by simp [pySlice]
    have hs2 : pySlice idCol 100 (100 + 100) = idCol.drop 100 := by
      unfold pySlice
      rw [show (100 : Nat) + 100 - 100 = 100 from rfl]
      exact List.take_of_length_le (by rw [List.length_drop, h]; norm_num)
    rw [hs1, hs2]
    rfl
  · rw [List.length_take, h]
    decide
  · rw [List.length_drop, h]

theorem c6_status_150_two_updates_witness :
    (List.replicate 150 ((some "7") : Cell)).length = 150 ∧
    ((List.replicate 150 ((some "7") : Cell)).take 100).length = 100 ∧
    ((List.replicate 150 ((some "7") : Cell)).drop 100).length = 50 :=
  ⟨by simp,
   (c6_status_150_two_updates (List.replicate 150 (some "7")) (by simp) "confirmed").2.1,
   (c6_status_150_two_updates (List.replicate 150 (some "7")) (by simp) "confirmed").2.2⟩

/-- C7: on an input with zero rows, the date emitter prints its headers
and a verification query whose key list is the empty join (`IN ('')`),
with no `UPDATE` statement; the status script, on a frame whose
`activity_booking_id` and `status` columns are empty, likewise prints no
`UPDATE` statement and one verification query over the empty id list
(`IN ()`). -/
theorem c7_zero_rows (fmt : String → String) (vc : List Cell → String) :
    generate_update_sql fmt [] =
      ["Total unique bookings to update: 0",
       "\n-- SQL to update booking creation dates from Excel file",
       "-- This will update the anomalous bookings imported in bulk\n",
       "-- Updating 0 bookings\n",
       "\n\n-- Verification query to check the updates",
       "SELECT COUNT(*) as updated_count, MIN(created_at) as min_date, MAX(created_at) as max_date",
       "FROM activity_bookings",
       "WHERE booking_id::text IN ('');"]
    ∧ update_status_from_csv vc ⟨[("activity_booking_id", []), ("status", [])]⟩ =
      ["File info:",
       "Total rows: 0",
       "Columns: ['activity_booking_id', 'status']",
       "\nFound status column: status",
       "Status values: " ++ vc [],
       "\nUnique activity_booking_ids: 0",
       "\n\n-- SQL Updates for status changes",
       "-- Grouping by status for efficiency\n",
       "\n-- Verification query",
       "SELECT status, COUNT(*) as count",
       "FROM activity_bookings",
       "WHERE activity_booking_id IN ()",
       "GROUP BY status;"] :=
  ⟨rfl, rfl⟩

/-- C10: a row whose status cell is missing (`NaN`) is excluded from every
status group (the pandas equality filter never matches `NaN`), so it is
targeted by no generated `UPDATE`, yet its id still appears in the
verification query's `IN` list, which is built from all rows; on the
concrete frame with ids `1, 2` and statuses `confirmed, NaN`, the updated
ids are a strict subset of the verified ids. -/
theorem c10_nan_rows (idCol statusCol : List Cell) (id : Cell)
    (hmem : (id, (none : Cell)) ∈ idCol.zip statusCol) :
    (cellStr id ∈ idCol.map cellStr) ∧
    (∀ st : Cell, (id, (none : Cell)) ∉
        (idCol.zip statusCol).filter (fun p => eqCell p.2 st)) ∧
    updatedCells [some "confirmed", none] [some "1", some "2"] = [some "1"] ∧
    statusVerification [some "1", some "2"] =
      ["\n-- Verification query",
       "SELECT status, COUNT(*) as count",
       "FROM activity_bookings",
       "WHERE activity_booking_id IN (1, 2)",
       "GROUP BY status;"] ∧
    ((some "2" : Cell) ∈ ([some "1", some "2"] : List Cell) ∧
     (some "2" : Cell) ∉ updatedCells [some "confirmed", none] [some "1", some "2"]) := by
  refine ⟨?_, ?_, by decide, by decide, by decide, by decide⟩
  · exact List.mem_map.mpr ⟨id, (List.of_mem_zip hmem).1, rfl⟩
  · intro st hin
    have hp := (List.mem_filter.mp hin).2
    rw [eqCell_none_left st] at hp
    exact Bool.false_ne_true hp

theorem c10_nan_rows_witness :
    ((some "2", (none : Cell)) ∈
        ([some "1", some "2"] : List Cell).zip ([some "confirmed", none] : List Cell)) ∧
      cellStr (some "2") ∈ ([some "1", some "2"] : List Cell).map cellStr :=
  ⟨by decide,
   (c10_nan_rows [some "1", some "2"] [some "confirmed", none] (some "2") (by decide)).1⟩

/-- C4: for every non-empty batch of (key, timestamp) pairs, the date
emitter prints exactly one `UPDATE` statement, its `CASE` block carries
one `WHEN` line per pair (in order) followed by the identity fallback
`ELSE created_at`, its final line is the `WHERE booking_id IN (…)` clause
over exactly the batch's keys, and — by the semantics of such a
statement — a row whose key is not among the batch's keys is left
unchanged. -/
theorem c4_date_emitter (fmt : String → String) (i : Nat)
    (batch : List (String × String)) (_hb : batch ≠ []) :
    ((emitDateBatch fmt i batch).filter (fun l => l == "UPDATE activity_bookings")).length = 1 ∧
    (emitDateBatch fmt i batch).filter (fun l => isWhenLine l || l == "    ELSE created_at")
      = batch.map (fmtWhen fmt) ++ ["    ELSE created_at"] ∧
    (emitDateBatch fmt i batch).getLast? =
      some ("WHERE booking_id::text IN ('" ++ joinKeys (batch.map Prod.fst) ++ "');") ∧
    (∀ row : String × String, (batch.map Prod.fst).contains row.1 = false →
      runDateUpdate fmt batch row = row) := by
  have hbatch_ne : (("\n-- Batch " ++ toString (i / 50 + 1)) == "UPDATE activity_bookings")
      = false := string_beq_false_of_data_head rfl rfl (by decide)
  have hwhere_ne : (("WHERE booking_id::text IN ('" ++ joinKeys (batch.map Prod.fst) ++ "');")
      == "UPDATE activity_bookings") = false :=
    string_beq_false_of_data_head rfl rfl (by decide)
  have hwhen_ne : ∀ p : String × String,
      (fmtWhen fmt p == "UPDATE activity_bookings") = false := fun _ =>
    string_beq_false_of_data_head rfl rfl (by decide)
  refine ⟨?_, ?_, ?_, ?_⟩
  · unfold emitDateBatch
    rw [List.filter_append, List.filter_append]
    have hset : ("SET created_at = CASE booking_id::text" == "UPDATE activity_bookings")
        = false := by decide
    have hA : List.filter (fun l => l == "UPDATE activity_bookings")
        ["\n-- Batch " ++ toString (i / 50 + 1), "UPDATE activity_bookings",
         "SET created_at = CASE booking_id::text"] = ["UPDATE activity_bookings"] := by
      simp [hbatch_ne, hset]
    have hM : List.filter (fun l => l == "UPDATE activity_bookings")
        (batch.map (fmtWhen fmt)) = [] := by
      rw [List.filter_eq_nil_iff]
      intro a ha
      obtain ⟨p, _, rfl⟩ := List.mem_map.mp ha
      simp [hwhen_ne p]
    have hB : List.filter (fun l => l == "UPDATE activity_bookings")
        ["    ELSE created_at", "END",
         "WHERE booking_id::text IN ('" ++ joinKeys (batch.map Prod.fst) ++ "');"] = [] := by
      have he : ("    ELSE created_at" == "UPDATE activity_bookings") = false := by decide
      have hend : ("END" == "UPDATE activity_bookings") = false := by decide
      simp [he, hend, hwhere_ne]
    rw [hA, hM, hB]
    rfl
  · have h2A1w : isWhenLine ("\n-- Batch " ++ toString (i / 50 + 1)) = false :=
      isWhenLine_false_of_head rfl (by decide)
    have h2A1e : (("\n-- Batch " ++ toString (i / 50 + 1)) == "    ELSE created_at")
        = false := string_beq_false_of_data_head rfl rfl (by decide)
    have h2A2w : isWhenLine "UPDATE activity_bookings" = false := by decide
    have h2A2e : ("UPDATE activity_bookings" == "    ELSE created_at") = false := by decide
    have h2A3w : isWhenLine "SET created_at = CASE booking_id::text" = false := by decide
    have h2A3e : ("SET created_at = CASE booking_id::text" == "    ELSE created_at")
        = false := by decide
    have h2Ew : isWhenLine "    ELSE created_at" = false := by decide
    have h2Endw : isWhenLine "END" = false := by decide
    have h2Ende : ("END" == "    ELSE created_at") = false := by decide
    have h2Ww : isWhenLine
        ("WHERE booking_id::text IN ('" ++ joinKeys (batch.map Prod.fst) ++ "');") = false :=
      isWhenLine_false_of_head rfl (by decide)
    have h2We : (("WHERE booking_id::text IN ('" ++ joinKeys (batch.map Prod.fst) ++ "');")
        == "    ELSE created_at") = false :=
      string_beq_false_of_data_head rfl rfl (by decide)
    have h2M : List.filter (fun l => isWhenLine l || l == "    ELSE created_at")
        (batch.map (fmtWhen fmt)) = batch.map (fmtWhen fmt) := by
      rw [List.filter_eq_self]
      intro a ha
      obtain ⟨p, _, rfl⟩ := List.mem_map.mp ha
      simp [isWhenLine_fmtWhen fmt p]
    unfold emitDateBatch
    rw [List.filter_append, List.filter_append, h2M]
    have hA2 : List.filter (fun l => isWhenLine l || l == "    ELSE created_at")
        ["\n-- Batch " ++ toString (i / 50 + 1), "UPDATE activity_bookings",
         "SET created_at = CASE booking_id::text"] = [] := by
      simp [h2A1w, h2A1e, h2A2w, h2A2e, h2A3w, h2A3e]
    have hB2 : List.filter (fun l => isWhenLine l || l == "    ELSE created_at")
        ["    ELSE created_at", "END",
         "WHERE booking_id::text IN ('" ++ joinKeys (batch.map Prod.fst) ++ "');"]
        = ["    ELSE created_at"] := by
      simp [h2Ew, h2Endw, h2Ende, h2Ww, h2We]
    rw [hA2, hB2]
    simp
  · unfold emitDateBatch
    rw [show (["    ELSE created_at", "END",
        "WHERE booking_id::text IN ('" ++ joinKeys (batch.map Prod.fst) ++ "');"] : List String)
        = ["    ELSE created_at", "END"] ++
          ["WHERE booking_id::text IN ('" ++ joinKeys (batch.map Prod.fst) ++ "');"] from rfl,
      ← List.append_assoc]
    exact List.getLast?_concat _
  · intro row hrow
    unfold runDateUpdate
    rw [hrow]
    simp

theorem c4_date_emitter_witness :
    ([("1", "d1")] : List (String × String)) ≠ [] ∧
    ((emitDateBatch (fun s => s) 0 [("1", "d1")]).filter
        (fun l => l == "UPDATE activity_bookings")).length = 1 :=
  ⟨by decide, (c4_date_emitter (fun s => s) 0 [("1", "d1")] (by decide)).1⟩

/-- C8: on a missing expected column the two scripts differ: the date
script's unchecked column accesses raise an uncaught `KeyError` (for
`booking_id`, then `creation_date`), while the status script detects a
missing `activity_booking_id` (or status) column, prints a not-found
message, and emits no `UPDATE` statement. -/
theorem c8_missing_columns :
    (∀ (df : CsvFrame) (fmt : String → String), lookupCol df "booking_id" = none →
      generate_update_sql_main fmt df = .error "KeyError: booking_id") ∧
    (∀ (df : CsvFrame) (fmt : String → String) (bcol : List Cell),
      lookupCol df "booking_id" = some bcol → lookupCol df "creation_date" = none →
      generate_update_sql_main fmt df = .error "KeyError: creation_date") ∧
    (∀ (df : CsvFrame) (vc : List Cell → String),
      hasCol df "activity_booking_id" = false →
      "activity_booking_id column not found!" ∈ update_status_from_csv vc df ∧
      "UPDATE activity_bookings" ∉ update_status_from_csv vc df) ∧
    (∀ (df : CsvFrame) (vc : List Cell → String), findStatusCol df = none →
      "\nStatus column not found!" ∈ update_status_from_csv vc df ∧
      "UPDATE activity_bookings" ∉ update_status_from_csv vc df) := by
  refine ⟨?_, ?_, ?_, ?_⟩
  · intro df fmt h
    unfold generate_update_sql_main getColE
    rw [h]
    rfl
  · intro df fmt bcol h1 h2
    unfold generate_update_sql_main getColE
    rw [h1, h2]
    rfl
  · intro df vc h
    have hout : update_status_from_csv vc df =
        (["File info:",
          "Total rows: " ++ toString (numRows df),
          "Columns: " ++ pyListRepr (df.cols.map Prod.fst)]
         ++ (match findStatusCol df with
             | some sc => ["\nFound status column: " ++ sc,
                           "Status values: " ++ vc (getColD df sc)]
             | none => ["\nStatus column not found!"])
         ++ ["activity_booking_id column not found!"]) := by
      unfold update_status_from_csv
      simp only [h, Bool.false_eq_true, if_false]
    refine ⟨?_, ?_⟩
    · rw [hout]
      simp
    · rw [hout]
      intro hmem
      rcases List.mem_append.mp hmem with h12 | h3
      · rcases List.mem_append.mp h12 with h1 | h2
        · simp only [List.mem_cons, List.not_mem_nil, or_false] at h1
          rcases h1 with e | e | e
          · exact absurd e (by decide)
          · exact string_ne_of_data_head rfl rfl (by decide) e.symm
          · exact string_ne_of_data_head rfl rfl (by decide) e.symm
        · cases hsc : findStatusCol df with
          | none =>
            rw [hsc] at h2
            simp only [List.mem_cons, List.not_mem_nil, or_false] at h2
            exact absurd h2 (by decide)
          | some sc =>
            rw [hsc] at h2
            simp only [List.mem_cons, List.not_mem_nil, or_false] at h2
            rcases h2 with e | e
            · exact string_ne_of_data_head rfl rfl (by decide) e.symm
            · exact string_ne_of_data_head rfl rfl (by decide) e.symm
      · simp only [List.mem_cons, List.not_mem_nil, or_false] at h3
        exact absurd h3 (by decide)
  · intro df vc h
    have hout : update_status_from_csv vc df =
        (["File info:",
          "Total rows: " ++ toString (numRows df),
          "Columns: " ++ pyListRepr (df.cols.map Prod.fst)]
         ++ ["\nStatus column not found!"]
         ++ (if hasCol df "activity_booking_id" = true then
               ["\nUnique activity_booking_ids: " ++
                  toString (nuniqueCells (getColD df "activity_booking_id")),
                "\n\n-- SQL Updates for status changes",
                "-- Grouping by status for efficiency\n"]
             else ["activity_booking_id column not found!"])) := by
      unfold update_status_from_csv
      simp only [h, List.append_nil]
    refine ⟨?_, ?_⟩
    · rw [hout]
      simp
    · rw [hout]
      intro hmem
      rcases List.mem_append.mp hmem with h12 | h3
      · rcases List.mem_append.mp h12 with h1 | h2
        · simp only [List.mem_cons, List.not_mem_nil, or_false] at h1
          rcases h1 with e | e | e
          · exact absurd e (by decide)
          · exact string_ne_of_data_head rfl rfl (by decide) e.symm
          · exact string_ne_of_data_head rfl rfl (by decide) e.symm
        · simp only [List.mem_cons, List.not_mem_nil, or_false] at h2
          exact absurd h2 (by decide)
      · by_cases hc : hasCol df "activity_booking_id" = true
        · rw [if_pos hc] at h3
          simp only [List.mem_cons, List.not_mem_nil, or_false] at h3
          rcases h3 with e | e | e
          · exact string_ne_of_data_head rfl rfl (by decide) e.symm
          · exact absurd e (by decide)
          · exact absurd e (by decide)
        · rw [if_neg hc] at h3
          simp only [List.mem_cons, List.not_mem_nil, or_false] at h3
          exact absurd h3 (by decide)

theorem c8_missing_columns_witness :
    generate_update_sql_main (fun s => s) ⟨[]⟩ = .error "KeyError: booking_id" ∧
    generate_update_sql_main (fun s => s) ⟨[("booking_id", [])]⟩
      = .error "KeyError: creation_date" ∧
    ("activity_booking_id column not found!" ∈ update_status_from_csv (fun _ => "") ⟨[]⟩ ∧
      "UPDATE activity_bookings" ∉ update_status_from_csv (fun _ => "") ⟨[]⟩) ∧
    ("\nStatus column not found!" ∈ update_status_from_csv (fun _ => "") ⟨[]⟩ ∧
      "UPDATE activity_bookings" ∉ update_status_from_csv (fun _ => "") ⟨[]⟩) :=
  ⟨c8_missing_columns.1 ⟨[]⟩ (fun s => s) rfl,
   c8_missing_columns.2.1 ⟨[("booking_id", [])]⟩ (fun s => s) [] rfl rfl,
   c8_missing_columns.2.2.1 ⟨[]⟩ (fun _ => "") rfl,
   c8_missing_columns.2.2.2 ⟨[]⟩ (fun _ => "") rfl⟩
